import Mathlib

/-!
Formal model of the domain-hunter batch pipeline, shallowly embedded from
`src/ai_score_domains.py` (scoring stage) and `src/domain_pricing.py`
(pricing stage).

Modelling conventions:
* SQLite rows of the `domain_results` table become the structure `Row`,
  and the table itself a `List Row`; the autoincrement `id` and the
  `timestamp` column (never read by the modelled code paths) are omitted.
* Numeric SQL/JSON values (REAL columns, JSON numbers, prices) are
  modelled as rationals.
* Each network round trip is abstracted as an environment-supplied outcome
  (an inductive listing the cases the source branches on); `random.uniform(0, 1)`
  jitter becomes an arbitrary function `jitter : Nat -> Rat`.
* Python's `str.lower`, `str.strip`, substring containment and
  `split('.')[-1]` are re-implemented structurally on the character list of
  a `String` (ASCII case folding, which coincides with Python/SQLite on the
  domain strings involved), so that every definition evaluates by `decide`.
-/

namespace DomainHunter

/-- ASCII lower-casing of one character, as Python `str.lower` and SQLite
`LOWER` act on the ASCII domain strings this pipeline handles. -/
def lowerChar (c : Char) : Char :=
  if 65 ≤ c.toNat ∧ c.toNat ≤ 90 then Char.ofNat (c.toNat + 32) else c

/-- Python `s.lower()` (ASCII range). -/
def lowerStr (s : String) : String := String.mk (s.data.map lowerChar)

/-- Whitespace recognised by Python `str.strip()` on the inputs involved. -/
def isSpaceChar (c : Char) : Bool := c == ' ' || c == '\t' || c == '\n' || c == '\r'

/-- Python `s.strip()`. -/
def trimStr (s : String) : String :=
  String.mk (((s.data.dropWhile isSpaceChar).reverse.dropWhile isSpaceChar).reverse)

/-- Whether `pat` occurs at the head of `s` (character lists). -/
def leadsWith : List Char → List Char → Bool
  | [], _ => true
  | _ :: _, [] => false
  | c :: cs, d :: ds => c == d && leadsWith cs ds

def hasSubAux (pat : List Char) : List Char → Bool
  | [] => leadsWith pat []
  | c :: cs => leadsWith pat (c :: cs) || hasSubAux pat cs

/-- Python substring containment `pat in s`. -/
def containsSub (s pat : String) : Bool := hasSubAux pat.data s.data

/-- Python `domain.split('.')[-1]`: the suffix after the last dot
(the whole string when there is no dot). -/
def afterLastDot (s : String) : String :=
  String.mk ((s.data.reverse.takeWhile (fun c => !(c == '.'))).reverse)

/-! ## The `domain_results` table -/

/-- One row of `domain_results` (content columns only). `price`,
`price_type` and `pricing_data` are the pricing-stage columns added by
`ensure_price_columns_exist`; the remaining columns are written by the
scoring stage. -/
structure Row where
  domain : String
  memorability : Option ℚ
  pronunciation : Option ℚ
  visual_appeal : Option ℚ
  brandability : Option ℚ
  average_score : Option ℚ
  raw_json : Option String
  error : Option String
  price : Option ℚ
  price_type : Option String
  pricing_data : Option String
deriving DecidableEq

/-- The 8-tuple the scoring worker hands to `insert_result`:
(domain, memorability, pronunciation, visual_appeal, brandability,
average_score, raw_json, error). -/
structure ScoreRow where
  domain : String
  memorability : Option ℚ
  pronunciation : Option ℚ
  visual_appeal : Option ℚ
  brandability : Option ℚ
  average_score : Option ℚ
  raw_json : Option String
  error : Option String
deriving DecidableEq

/-- The row actually inserted by `INSERT OR REPLACE INTO domain_results
(domain, memorability, pronunciation, visual_appeal, brandability,
average_score, raw_json, error) VALUES (...)`: every column not listed in
the statement reverts to its default, NULL. -/
def rowOfScore (r : ScoreRow) : Row :=
  { domain := r.domain
    memorability := r.memorability
    pronunciation := r.pronunciation
    visual_appeal := r.visual_appeal
    brandability := r.brandability
    average_score := r.average_score
    raw_json := r.raw_json
    error := r.error
    price := none
    price_type := none
    pricing_data := none }

/-- Model of `insert_result` (ai_score_domains.py, lines 92-100). SQLite
`INSERT OR REPLACE` resolves the UNIQUE(domain) conflict (exact,
case-sensitive BINARY comparison) by deleting the conflicting row and
inserting the fresh one built from the eight listed columns. -/
def insert_result (db : List Row) (r : ScoreRow) : List Row :=
  rowOfScore r :: db.filter (fun row => row.domain != r.domain)

/-- Model of `domain_already_processed` (ai_score_domains.py, lines 102-111):
`SELECT average_score FROM domain_results WHERE LOWER(domain) = ?` with the
parameter `domain.strip().lower()`; the first matching row is inspected and
the domain counts as processed only when its `average_score` is non-NULL. -/
def domain_already_processed (db : List Row) (domain : String) : Bool :=
  match db.find? (fun r => lowerStr r.domain == lowerStr (trimStr domain)) with
  | some r => r.average_score.isSome
  | none => false

/-- The result dictionary produced by `check_domain_availability`
(the keys later consumed: domain, available, error, price_type, price;
the raw diagnostic `response_text` is not modelled). -/
structure PriceInfo where
  domain : String
  available : Bool
  error : Option String
  price_type : Option String
  price : Option ℚ
deriving DecidableEq

/-- Stand-in for `json.dumps(pricing_data)` stored into the
`pricing_data` column (timestamp field omitted). -/
def encodePricingData (domain : String) (info : PriceInfo) : String :=
  domain ++ ";" ++ toString info.available ++ ";" ++ info.price_type.getD "null"
    ++ ";" ++ toString (info.price.getD 0) ++ ";" ++ info.error.getD "null"

/-- Model of `update_domain_price_in_db` (domain_pricing.py, lines 434-488): when the
outcome carries no error, `UPDATE domain_results SET price = ?,
price_type = ?, error = ?, pricing_data = ? WHERE domain = ?`; otherwise
only `SET pricing_data = ? WHERE domain = ?`. The SQL comparison
`domain = ?` is the exact (case-sensitive) BINARY text comparison. -/
def update_domain_price_in_db (db : List Row) (domain : String) (info : PriceInfo) :
    List Row :=
  if info.error = none then
    db.map (fun row =>
      if row.domain = domain then
        { row with
          price := info.price
          price_type := info.price_type
          error := info.error
          pricing_data := some (encodePricingData domain info) }
      else row)
  else
    db.map (fun row =>
      if row.domain = domain then
        { row with pricing_data := some (encodePricingData domain info) }
      else row)

/-- The WHERE clause of `get_domains_to_process` (domain_pricing.py, lines
69-99): `sort_field IS NOT NULL`, plus `(price_type IS NULL OR price_type
!= 'Taken')` unless `include_taken`, plus `(price_type IS NULL OR
price_type = 'Error')` when `skip_priced`. `sortVal` projects the chosen
sort column out of a row. -/
def selectedForPricing (sortVal : Row → Option ℚ) (includeTaken skipPriced : Bool)
    (row : Row) : Bool :=
  (sortVal row).isSome
  && (includeTaken || match row.price_type with
      | none => true
      | some pt => pt != "Taken")
  && (!skipPriced || match row.price_type with
      | none => true
      | some pt => pt == "Error")

/-- Model of `get_domains_to_process`: the selected domains (ORDER BY and LIMIT,
which only reorder and truncate, are not modelled). -/
def get_domains_to_process (db : List Row) (sortVal : Row → Option ℚ)
    (includeTaken skipPriced : Bool) : List String :=
  (db.filter (selectedForPricing sortVal includeTaken skipPriced)).map Row.domain

/-- The premium price-ceiling step of `process_domain_batch`
(domain_pricing.py, lines 563-570): reached only for error-free, available,
Premium outcomes; `if max_price and result.get('price', 0) > max_price`
(Python truthiness: `max_price` must be non-None and nonzero) rewrites the
price_type to 'Filtered'. -/
def applyMaxPriceFilter : Option ℚ → PriceInfo → PriceInfo
  | none, r => r
  | some m, r =>
    if r.error = none ∧ r.available = true ∧ r.price_type = some "Premium"
        ∧ ¬ m = 0 ∧ r.price.getD 0 > m then
      { r with price_type := some "Filtered" }
    else r

/-! ## Scoring worker (`ai_score`) -/

/-- What became of the response body of one successful scoring API call
(ai_score_domains.py, lines 196-299). The markdown-fence cleanup, the
strict `json.loads`, and the aggressive fallback cleanup are pure string
processing whose only observable effect is which of these cases holds;
`data` is the parsed JSON object as a key/value list (values numeric, the
only case the claims exercise). -/
inductive RespBody
  | json (raw : String) (data : List (String × ℚ))
  | repairable (raw emsg cleaned : String) (data : List (String × ℚ))
  | malformed (raw emsg : String)
deriving DecidableEq

/-- Outcome of one attempt of the scoring API call: a response, or an
exception with message `emsg` (classified by substring, as the source
does on `str(e).lower()`). -/
inductive ApiOutcome
  | success (body : RespBody)
  | exn (emsg : String)
deriving DecidableEq

/-- The error classifier of `ai_score` (lines 301-323), applied to
`str(e).lower()`. -/
def classifyScoringError (emsg : String) : String :=
  let l := lowerStr emsg
  if containsSub l "rate limit" || containsSub l "too many requests" then "Rate Limit"
  else if containsSub l "auth" || containsSub l "key" then "Auth Error"
  else if containsSub l "model" then "Model Error"
  else "Other Error"

/-- Structured return of the modelled `ai_score` loop: the 8-tuple row it
inserts, the number of API calls performed, the error-statistics key
recorded (`none` on success), and the list of backoff sleeps performed. -/
structure AiScoreResult where
  row : ScoreRow
  attempts : ℕ
  tag : Option String
  delays : List ℚ
deriving DecidableEq

def errScoreRow (domain : String) (raw : Option String) (emsg : String) : ScoreRow :=
  ⟨domain, none, none, none, none, none, raw, some emsg⟩

/-- The row built from an accepted (parsed) response: each sub-score is
`data.get(key)` and `average_score = sum(data.values()) / len(data)` —
over however many keys the object happens to contain. -/
def scoreRowOfData (domain raw : String) (data : List (String × ℚ)) : ScoreRow :=
  { domain := domain
    memorability := data.lookup "memorability"
    pronunciation := data.lookup "pronunciation"
    visual_appeal := data.lookup "visual_appeal"
    brandability := data.lookup "brandability"
    average_score := some ((data.map Prod.snd).sum / (data.length : ℚ))
    raw_json := some raw
    error := none }

/-- Handling of one successful API response (lines 196-299): a strict
parse is accepted outright; on a strict-parse failure the aggressive
cleanup is tried exactly once and, if it parses, accepted; otherwise a
"JSON Error" row is recorded and the loop returns with no further attempt.
An empty object makes `sum(data.values()) / len(data)` raise
`ZeroDivisionError`: in the strict branch that lands in the generic
exception handler ("Other Error", `raw_json` not stored, line 334), in the
repair branch in the bare `except`, falling back to the JSON Error row. -/
def processBody (domain : String) (body : RespBody) (a : ℕ) : AiScoreResult :=
  match body with
  | .json raw data =>
    if data.isEmpty then
      ⟨errScoreRow domain none "Error: division by zero", a + 1, some "Other Error", []⟩
    else ⟨scoreRowOfData domain raw data, a + 1, none, []⟩
  | .repairable raw emsg cleaned data =>
    if data.isEmpty then
      ⟨errScoreRow domain (some raw) ("JSON Error: " ++ emsg), a + 1, some "JSON Error", []⟩
    else ⟨scoreRowOfData domain cleaned data, a + 1, none, []⟩
  | .malformed raw emsg =>
    ⟨errScoreRow domain (some raw) ("JSON Error: " ++ emsg), a + 1, some "JSON Error", []⟩

/-- The retry loop of `ai_score` (ai_score_domains.py, lines 181-337),
after the `domain_already_processed` skip. `a` is the Python `attempt`
index and `fuel = max_retries - a`. Only a "Rate Limit" exception with
`attempt < max_retries - 1` continues the loop, sleeping
`retry_delay * 2 ** attempt + uniform(0, 1)` with `retry_delay = 1`;
every other outcome returns. `none` models the loop falling through
(Python would implicitly return `None`), unreachable from `fuel =
max_retries > 0`. -/
def ai_score_go (domain : String) (maxRetries : ℕ) (jitter : ℕ → ℚ)
    (env : ℕ → ApiOutcome) : ℕ → ℕ → Option AiScoreResult
  | _, 0 => none
  | a, fuel + 1 =>
    match env a with
    | .success body => some (processBody domain body a)
    | .exn emsg =>
      let cls := classifyScoringError emsg
      if cls = "Rate Limit" then
        if a < maxRetries - 1 then
          (ai_score_go domain maxRetries jitter env (a + 1) fuel).map
            (fun r => { r with delays := (1 * 2 ^ a + jitter a) :: r.delays })
        else some ⟨errScoreRow domain none "Rate limited", a + 1, some "Rate Limit", []⟩
      else if cls = "Auth Error" then
        some ⟨errScoreRow domain none ("Authentication Error: " ++ emsg), a + 1,
          some "Auth Error", []⟩
      else if cls = "Model Error" then
        some ⟨errScoreRow domain none ("Model Error: " ++ emsg), a + 1,
          some "Model Error", []⟩
      else
        some ⟨errScoreRow domain none ("Error: " ++ emsg), a + 1, some "Other Error", []⟩

/-- Model of `ai_score` with the source's hard-coded `max_retries = 3`. -/
def ai_score (domain : String) (jitter : ℕ → ℚ) (env : ℕ → ApiOutcome) :
    Option AiScoreResult :=
  ai_score_go domain 3 jitter env 0 3

/-! ## Pricing: TLD price lookup and cache -/

/-- Static fallback table of `get_standard_price_for_tld`
(domain_pricing.py, lines 418-432). -/
def standard_prices : List (String × ℚ) :=
  [("com", 1098/100), ("net", 1198/100), ("org", 1198/100), ("io", 3298/100),
   ("ai", 7998/100), ("co", 2598/100), ("me", 1998/100), ("us", 998/100),
   ("to", 3998/100), ("xyz", 1298/100)]

/-- Model of `get_standard_price_for_tld`: `standard_prices.get(tld.lower(), 14.98)`. -/
def get_standard_price_for_tld (tld : String) : ℚ :=
  ((standard_prices.lookup (lowerStr tld)).getD (1498/100))

/-- Python dict assignment `tld_price_cache[tld] = v`. -/
def insertCache (k : String) (v : ℚ) (c : List (String × ℚ)) : List (String × ℚ) :=
  (k, v) :: c.filter (fun p => p.1 != k)

/-- Outcome of the single live `namecheap.users.getPricing` request inside
`get_tld_price` (lines 337-416): non-200 HTTP status; XML parse error;
API `Status` attribute not OK; a price element found with a parseable
`Price` attribute; a price element whose attribute `float()` rejects
(the `ValueError` escapes to the outer handler); no price element found on
any of the search paths; or any other exception. -/
inductive PricingResp
  | httpError
  | parseFail
  | apiNotOk
  | priceFound (p : ℚ)
  | priceUnparsable
  | priceMissing
  | exn
deriving DecidableEq

/-- The price a cache-missing `get_tld_price` computes: the live price if
one was found and parsed, the hardcoded fallback on every failure path. -/
def tldPriceOf (tld : String) (resp : PricingResp) : ℚ :=
  match resp with
  | .priceFound p => p
  | _ => get_standard_price_for_tld tld

/-- Model of `get_tld_price` (domain_pricing.py, lines 321-416) as a transformer of
the run-wide `tld_price_cache`: returns the price handed to the caller,
the updated cache, and whether a live lookup was issued. Every return
path of the source stores the returned price under `tld` before returning
(the cache-hit path finds it already stored). -/
def get_tld_price (cache : List (String × ℚ)) (tld : String) (resp : PricingResp) :
    ℚ × List (String × ℚ) × Bool :=
  match cache.lookup tld with
  | some p => (p, cache, false)
  | none =>
    let price := tldPriceOf tld resp
    (price, insertCache tld price cache, true)

/-! ## Pricing: availability check worker -/

/-- What the XML of a 200-status `namecheap.domains.check` response
amounted to (domain_pricing.py, lines 165-270). -/
inductive XmlBody
  | parseFail (emsg : String)
  | apiError (msg : Option String)
  | noCheckResult
  | taken
  | premium (p : ℚ)
  | standard
deriving DecidableEq

/-- Outcome of one attempt of the availability-check round trip. -/
inductive CheckOutcome
  | httpError (status : ℕ)
  | ok (body : XmlBody)
  | netError (emsg : String)
  | exn (emsg : String)
deriving DecidableEq

def MAX_RETRIES : ℕ := 3

def RETRY_DELAY : ℚ := 2

/-- Error text for a non-200 HTTP status (lines 143-148). -/
def httpErrorMsg (status : ℕ) : String :=
  if status = 429 then "Rate limit exceeded (429)"
  else if 500 ≤ status then "Server error (" ++ toString status ++ ")"
  else "API error: " ++ toString status

/-- Error text for an `aiohttp.ClientError` (lines 272-278). -/
def netErrorMsg (emsg : String) : String :=
  if containsSub emsg "TimeoutError" then "Timeout error: " ++ emsg
  else if containsSub emsg "ConnectError" then "Connection error: " ++ emsg
  else "Network error: " ++ emsg

/-- Error text for an API-level error response (lines 171-181): the error
element's text (or "Unknown API error"), marked "Rate limit: " when it
contains rate-limit phrasing. -/
def apiErrorMsg (msg : Option String) : String :=
  let m := msg.getD "Unknown API error"
  if containsSub (lowerStr m) "too many requests" || containsSub (lowerStr m) "rate limit"
  then "Rate limit: " ++ m
  else m

def errPriceInfo (domain : String) (emsg : String) : PriceInfo :=
  ⟨domain, false, some emsg, some "Error", none⟩

/-- Structured return of the modelled `check_domain_availability`: the
result dictionary, the number of API calls performed, the backoff sleeps,
the TLD cache after the call, and whether a TLD-price lookup was issued. -/
structure CheckResult where
  info : PriceInfo
  attempts : ℕ
  delays : List ℚ
  cache : List (String × ℚ)
  tldLookup : Bool
deriving DecidableEq

/-- The retry loop of `check_domain_availability` (domain_pricing.py,
lines 132-319). `a` is the Python `attempt` index, `fuel = MAX_RETRIES - a`.
Non-200 statuses, XML parse errors, network errors and unexpected
exceptions retry while `attempt < MAX_RETRIES - 1`, sleeping
`RETRY_DELAY * 2 ** attempt + uniform(0, 1)`; an API-level error response
(`Status != OK`), a missing DomainCheckResult, and every parsed result
return immediately. The fuel-exhausted case is the source's unreachable
fall-through return "Maximum retries exceeded" (line 312). -/
def check_go (domain : String) (jitter : ℕ → ℚ) (env : ℕ → CheckOutcome)
    (presp : PricingResp) (cache : List (String × ℚ)) : ℕ → ℕ → CheckResult
  | a, 0 => ⟨errPriceInfo domain "Maximum retries exceeded", a, [], cache, false⟩
  | a, fuel + 1 =>
    match env a with
    | .httpError status =>
      if a < MAX_RETRIES - 1 then
        let r := check_go domain jitter env presp cache (a + 1) fuel
        { r with delays := (RETRY_DELAY * 2 ^ a + jitter a) :: r.delays }
      else ⟨errPriceInfo domain (httpErrorMsg status), a + 1, [], cache, false⟩
    | .ok (.parseFail emsg) =>
      if a < MAX_RETRIES - 1 then
        let r := check_go domain jitter env presp cache (a + 1) fuel
        { r with delays := (RETRY_DELAY * 2 ^ a + jitter a) :: r.delays }
      else ⟨errPriceInfo domain ("XML parsing error: " ++ emsg), a + 1, [], cache, false⟩
    | .ok (.apiError m) =>
      ⟨errPriceInfo domain (apiErrorMsg m), a + 1, [], cache, false⟩
    | .ok .noCheckResult =>
      ⟨errPriceInfo domain "No DomainCheckResult found in API response", a + 1, [],
        cache, false⟩
    | .ok .taken =>
      ⟨⟨domain, false, none, some "Taken", none⟩, a + 1, [], cache, false⟩
    | .ok (.premium p) =>
      ⟨⟨domain, true, none, some "Premium", some p⟩, a + 1, [], cache, false⟩
    | .ok .standard =>
      let r := get_tld_price cache (afterLastDot domain) presp
      ⟨⟨domain, true, none, some "Standard", some r.1⟩, a + 1, [], r.2.1, r.2.2⟩
    | .netError emsg =>
      if a < MAX_RETRIES - 1 then
        let r := check_go domain jitter env presp cache (a + 1) fuel
        { r with delays := (RETRY_DELAY * 2 ^ a + jitter a) :: r.delays }
      else ⟨errPriceInfo domain (netErrorMsg emsg), a + 1, [], cache, false⟩
    | .exn emsg =>
      if a < MAX_RETRIES - 1 then
        let r := check_go domain jitter env presp cache (a + 1) fuel
        { r with delays := (RETRY_DELAY * 2 ^ a + jitter a) :: r.delays }
      else ⟨errPriceInfo domain ("Unexpected error: " ++ emsg), a + 1, [], cache, false⟩

def check_domain_availability (domain : String) (jitter : ℕ → ℚ)
    (env : ℕ → CheckOutcome) (presp : PricingResp) (cache : List (String × ℚ)) :
    CheckResult :=
  check_go domain jitter env presp cache 0 MAX_RETRIES

/-! ## Dispatcher backoff state (`update_domain_prices`) -/

/-- The adaptive-delay bookkeeping of `update_domain_prices`:
`consecutive_errors` and `current_delay`. -/
structure DispatchState where
  consecutiveErrors : ℕ
  currentDelay : ℚ
deriving DecidableEq

/-- The backoff sleep at the top of the batch loop (domain_pricing.py,
lines 706-710): when `consecutive_errors > 0`, sleep
`current_delay * 2 ** min(consecutive_errors - 1, 5)`. -/
def preDispatchCooldown (s : DispatchState) : Option ℚ :=
  if s.consecutiveErrors > 0 then
    some (s.currentDelay * 2 ^ (min (s.consecutiveErrors - 1) 5))
  else none

/-- End-of-batch bookkeeping (lines 729-788): `consecutive_errors` was
reset to 0 inside the retry loop on a successful batch, else incremented;
then either the long 60 s cooldown fires (`consecutive_errors >=
max_consecutive_failures`), resetting both, or `current_delay =
min(30, batch_cooldown * 2 ** (consecutive_errors - 1))`, or
`current_delay = batch_cooldown`. -/
def postBatchUpdate (batchCooldown : ℚ) (maxConsecFail : ℕ) (s : DispatchState)
    (batchSuccess : Bool) : DispatchState :=
  let ce := if batchSuccess then 0 else s.consecutiveErrors + 1
  if ce ≥ maxConsecFail then ⟨0, batchCooldown⟩
  else if ce > 0 then ⟨ce, min 30 (batchCooldown * 2 ^ (ce - 1))⟩
  else ⟨0, batchCooldown⟩

/-- Dispatcher state after `k` consecutive failing batches, starting from a
fresh run (`consecutive_errors = 0`, `current_delay = batch_cooldown`). -/
def failStreak (batchCooldown : ℚ) (maxConsecFail : ℕ) : ℕ → DispatchState
  | 0 => ⟨0, batchCooldown⟩
  | k + 1 => postBatchUpdate batchCooldown maxConsecFail
      (failStreak batchCooldown maxConsecFail k) false

/-! ## Concurrent TLD-cache interleavings -/

/-- One pricing worker inside `get_tld_price`: `pc = 0` before the
synchronous cache check, `pc = 1` suspended on the HTTP await of the live
lookup after a cache miss, `pc = 2` returned. -/
structure TldWorker where
  pc : ℕ
  result : Option ℚ
deriving DecidableEq

/-- Run-wide state shared by concurrent pricing workers: the
`tld_price_cache`, per-worker states, and the count of live lookups
issued. -/
structure TldRun where
  cache : List (String × ℚ)
  workers : List TldWorker
  lookups : ℕ
deriving DecidableEq

/-- One cooperative step of worker `i`. At `pc = 0` the worker performs
the cache check of `get_tld_price`: a hit returns the cached price at
once; a miss starts the live lookup and suspends on its HTTP await
(`pc := 1`) — the only suspension point between the cache check and the
cache store in the source. At `pc = 1` the awaited response arrives: the
price (live or fallback) is stored in the cache and returned. -/
def stepTldWorker (tld : String) (resp : PricingResp) (s : TldRun) (i : ℕ) : TldRun :=
  match s.workers.get? i with
  | none => s
  | some w =>
    if w.pc = 0 then
      match s.cache.lookup tld with
      | some p => { s with workers := s.workers.set i ⟨2, some p⟩ }
      | none => { s with workers := s.workers.set i ⟨1, none⟩ }
    else if w.pc = 1 then
      let price := tldPriceOf tld resp
      { cache := insertCache tld price s.cache
        workers := s.workers.set i ⟨2, some price⟩
        lookups := s.lookups + 1 }
    else s

/-- Run a cooperative schedule (a list of worker indices, each entry one
step of that worker). -/
def runTldSched (tld : String) (resp : PricingResp) : TldRun → List ℕ → TldRun
  | s, [] => s
  | s, i :: rest => runTldSched tld resp (stepTldWorker tld resp s i) rest

/-- Initial state: `n` workers about to price same-TLD standard domains against an empty
run-wide cache. -/
def initTldRun (n : ℕ) : TldRun :=
  ⟨[], List.replicate n ⟨0, none⟩, 0⟩

/-! ## Concrete fixtures used by witnesses and counterexamples -/
/-- The scoring-stage columns of a row (everything the pricing stage must
not touch, per the spec's frame condition). -/
def scoringView (r : Row) :
    String × Option ℚ × Option ℚ × Option ℚ × Option ℚ × Option ℚ × Option String :=
  (r.domain, r.memorability, r.pronunciation, r.visual_appeal, r.brandability,
   r.average_score, r.raw_json)

/-- A concrete row that has completed both scoring and pricing. -/
def pricedRow : Row :=
  { domain := "abc.ai", memorability := some 8, pronunciation := some 7,
    visual_appeal := some 9, brandability := some 8, average_score := some 8,
    raw_json := some "resp", error := none,
    price := some 500, price_type := some "Premium", pricing_data := some "pd" }

/-- A later scoring outcome for the same domain. -/
def scoreUpd : ScoreRow :=
  ⟨"abc.ai", some 9, some 9, some 9, some 9, some 9, some "resp2", none⟩

def okPriceInfo : PriceInfo := ⟨"abc.ai", true, none, some "Premium", some 500⟩

/-- A stored row whose domain retains its original (mixed) case. -/
def storedRow : Row :=
  { domain := "ABC.com", memorability := some 8, pronunciation := some 8,
    visual_appeal := some 8, brandability := some 8, average_score := some 8,
    raw_json := some "resp", error := none,
    price := none, price_type := none, pricing_data := none }

def stdInfo : PriceInfo := ⟨"abc.com", true, none, some "Standard", some 11⟩

/-- A row marked 'Filtered' by a previous run's price ceiling. -/
def filteredRow : Row :=
  { domain := "xyz.ai", memorability := some 9, pronunciation := some 9,
    visual_appeal := some 9, brandability := some 9, average_score := some 9,
    raw_json := some "resp", error := none,
    price := some 500, price_type := some "Filtered", pricing_data := some "pd" }

def pricingFailed : PricingResp → Bool
  | .priceFound _ => false
  | _ => true

/-- A parsed scoring object holding exactly the four sub-score keys. -/
def fourScores (a b c d : ℚ) : List (String × ℚ) :=
  [("memorability", a), ("pronunciation", b), ("visual_appeal", c), ("brandability", d)]

/-- A parsed scoring object carrying the four sub-scores plus a fifth key. -/
def fiveScores : List (String × ℚ) :=
  [("memorability", 8), ("pronunciation", 6), ("visual_appeal", 7),
   ("brandability", 9), ("overall", 10)]

/-! ## Helper lemmas -/

theorem ai_score_first (domain : String) (jitter : ℕ → ℚ) (env : ℕ → ApiOutcome)
    (body : RespBody) (h : env 0 = .success body) :
    ai_score domain jitter env = some (processBody domain body 0) := by
  unfold ai_score
  show ai_score_go domain 3 jitter env 0 (2 + 1) = _
  simp only [ai_score_go, h]

theorem processBody_json (domain raw : String) (data : List (String × ℚ)) (a : ℕ)
    (hd : data ≠ []) :
    processBody domain (.json raw data) a = ⟨scoreRowOfData domain raw data, a + 1, none, []⟩ := by
  have hie : data.isEmpty = false := by
    cases data with
    | nil => exact absurd rfl hd
    | cons x xs => rfl
  simp [processBody, hie]

theorem processBody_repairable (domain raw emsg cleaned : String)
    (data : List (String × ℚ)) (a : ℕ) (hd : data ≠ []) :
    processBody domain (.repairable raw emsg cleaned data) a
      = ⟨scoreRowOfData domain cleaned data, a + 1, none, []⟩ := by
  have hie : data.isEmpty = false := by
    cases data with
    | nil => exact absurd rfl hd
    | cons x xs => rfl
  simp [processBody, hie]

/-- C2 (amended): `average_score` is the sum of all values over the number
of keys of the parsed object; when the object holds exactly the four
sub-score keys this is their arithmetic mean. -/
theorem C2_amended (domain raw : String) (a b c d : ℚ) (data : List (String × ℚ))
    (h : data.Perm (fourScores a b c d)) :
    (scoreRowOfData domain raw data).average_score = some ((a + b + c + d) / 4) := by
  have hsum : (data.map Prod.snd).sum = a + b + c + d := by
    have h2 := (h.map Prod.snd).sum_eq
    simp [fourScores] at h2
    linarith
  have hlen : data.length = 4 := by
    have h3 := h.length_eq
    simpa [fourScores] using h3
  simp [scoreRowOfData, hsum, hlen]

theorem C2_witness :
    (scoreRowOfData "brandly.com" "resp" (fourScores 8 6 7 9)).average_score = some (15 / 2)
    ∧ ((8 : ℚ) + 6 + 7 + 9) / 4 = 15 / 2 := by
  have h := C2_amended "brandly.com" "resp" 8 6 7 9 (fourScores 8 6 7 9) (List.Perm.refl _)
  constructor
  · rw [h]; norm_num
  · norm_num

/-- C2 counterexample: a parsed object carrying the four sub-scores
{8, 6, 7, 9} plus one extra key stores those sub-scores unchanged but an
`average_score` of 8, not their mean 7.5. -/
theorem C2_counterexample :
    (scoreRowOfData "brandly.com" "resp" fiveScores).memorability = some 8
    ∧ (scoreRowOfData "brandly.com" "resp" fiveScores).pronunciation = some 6
    ∧ (scoreRowOfData "brandly.com" "resp" fiveScores).visual_appeal = some 7
    ∧ (scoreRowOfData "brandly.com" "resp" fiveScores).brandability = some 9
    ∧ (scoreRowOfData "brandly.com" "resp" fiveScores).average_score = some 8
    ∧ ((8 : ℚ) + 6 + 7 + 9) / 4 ≠ 8 := by
  refine ⟨by decide, by decide, by decide, by decide, ?_, by norm_num⟩
  show some ((fiveScores.map Prod.snd).sum / (fiveScores.length : ℚ)) = some 8
  norm_num [fiveScores]

/-- C3 (amended): the scoring worker accepts any response that parses (or
repairs) to a nonempty numeric JSON object, whatever keys it has and
whatever range its values lie in, storing missing sub-score keys as null;
only a response failing both parses is recorded as a JSON Error with no
scores. -/
theorem C3_amended (domain domain2 raw raw2 emsg : String) (jitter : ℕ → ℚ)
    (env env2 : ℕ → ApiOutcome) (data : List (String × ℚ))
    (h : env 0 = .success (.json raw data)) (hd : data ≠ [])
    (hm : env2 0 = .success (.malformed raw2 emsg)) :
    ai_score domain jitter env = some ⟨scoreRowOfData domain raw data, 1, none, []⟩
    ∧ ai_score domain2 jitter env2
        = some ⟨errScoreRow domain2 (some raw2) ("JSON Error: " ++ emsg), 1,
            some "JSON Error", []⟩ := by
  constructor
  · rw [ai_score_first domain jitter env _ h, processBody_json domain raw data 0 hd]
  · rw [ai_score_first domain2 jitter env2 _ hm]; rfl

theorem C3_witness :
    ai_score "a.io" (fun _ => 0) (fun _ => .success (.json "k9" [("memorability", 9)]))
      = some ⟨scoreRowOfData "a.io" "k9" [("memorability", 9)], 1, none, []⟩
    ∧ ai_score "b.io" (fun _ => 0) (fun _ => .success (.malformed "xx" "bad"))
      = some ⟨errScoreRow "b.io" (some "xx") ("JSON Error: " ++ "bad"), 1,
          some "JSON Error", []⟩ :=
  C3_amended "a.io" "b.io" "k9" "xx" "bad" (fun _ => 0)
    (fun _ => .success (.json "k9" [("memorability", 9)]))
    (fun _ => .success (.malformed "xx" "bad"))
    [("memorability", 9)] rfl (by decide) rfl

/-- C3 counterexample: the response object {"foo": 99} has none of the four
required keys and a value outside [1,10], yet it is accepted: the update is
recorded with no error, `average_score` 99 and all four sub-scores null,
instead of being classified as a Parse Error with no scores recorded. -/
theorem C3_counterexample :
    ai_score "x.com" (fun _ => 0) (fun _ => .success (.json "foo:99" [("foo", 99)]))
      = some ⟨⟨"x.com", none, none, none, none, some 99, some "foo:99", none⟩, 1, none, []⟩
    ∧ ¬ ((99 : ℚ) ≤ 10) := by
  constructor
  · rw [ai_score_first "x.com" (fun _ => 0) _ _ rfl,
        processBody_json "x.com" "foo:99" [("foo", 99)] 0 (by decide)]
    have h1 : ([("foo", (99 : ℚ))].lookup "memorability") = none := by decide
    have h2 : ([("foo", (99 : ℚ))].lookup "pronunciation") = none := by decide
    have h3 : ([("foo", (99 : ℚ))].lookup "visual_appeal") = none := by decide
    have h4 : ([("foo", (99 : ℚ))].lookup "brandability") = none := by decide
    simp [scoreRowOfData, h1, h2, h3, h4]
  · norm_num

/-- C5 (amended): in the scoring stage a malformed body gets at most one
local repair and no further network attempt — a failed repair is tagged
"JSON Error" after a single attempt, a successful repair is accepted after
a single attempt; in the pricing stage, however, an unparseable XML body
is retried with backoff up to MAX_RETRIES total attempts (with no local
repair) before being tagged as an XML parsing error. -/
theorem C5_amended (domain domain2 d2 raw emsg cleaned e : String) (jitter : ℕ → ℚ)
    (env env2 : ℕ → ApiOutcome) (envP : ℕ → CheckOutcome) (presp : PricingResp)
    (cache : List (String × ℚ)) (data : List (String × ℚ))
    (hm : env 0 = .success (.malformed raw emsg))
    (hr : env2 0 = .success (.repairable raw emsg cleaned data))
    (hd : data ≠ [])
    (hp0 : envP 0 = .ok (.parseFail e)) (hp1 : envP 1 = .ok (.parseFail e))
    (hp2 : envP 2 = .ok (.parseFail e)) :
    ai_score domain jitter env
      = some ⟨errScoreRow domain (some raw) ("JSON Error: " ++ emsg), 1, some "JSON Error", []⟩
    ∧ ai_score domain2 jitter env2 = some ⟨scoreRowOfData domain2 cleaned data, 1, none, []⟩
    ∧ check_domain_availability d2 jitter envP presp cache
      = ⟨errPriceInfo d2 ("XML parsing error: " ++ e), 3,
          [2 + jitter 0, 4 + jitter 1], cache, false⟩ := by
  refine ⟨?_, ?_, ?_⟩
  · rw [ai_score_first domain jitter env _ hm]; rfl
  · rw [ai_score_first domain2 jitter env2 _ hr,
        processBody_repairable domain2 raw emsg cleaned data 0 hd]
  · unfold check_domain_availability
    show check_go d2 jitter envP presp cache 0 (2 + 1) = _
    simp only [check_go, hp0, MAX_RETRIES, RETRY_DELAY]
    norm_num
    simp only [check_go, hp1, MAX_RETRIES, RETRY_DELAY]
    norm_num
    simp only [check_go, hp2, MAX_RETRIES, RETRY_DELAY]
    norm_num

theorem C5_witness :
    ai_score "a.io" (fun _ => 0) (fun _ => .success (.malformed "xx" "bad"))
      = some ⟨errScoreRow "a.io" (some "xx") ("JSON Error: " ++ "bad"), 1, some "JSON Error", []⟩
    ∧ ai_score "b.io" (fun _ => 0) (fun _ => .success (.repairable "xx" "bad" "k8" [("memorability", 8)]))
      = some ⟨scoreRowOfData "b.io" "k8" [("memorability", 8)], 1, none, []⟩
    ∧ check_domain_availability "c.io" (fun _ => 0) (fun _ => .ok (.parseFail "tag")) .exn []
      = ⟨errPriceInfo "c.io" ("XML parsing error: " ++ "tag"), 3,
          [2 + (0 : ℚ), 4 + (0 : ℚ)], [], false⟩ :=
  C5_amended "a.io" "b.io" "c.io" "xx" "bad" "k8" "tag" (fun _ => 0)
    (fun _ => .success (.malformed "xx" "bad"))
    (fun _ => .success (.repairable "xx" "bad" "k8" [("memorability", 8)]))
    (fun _ => .ok (.parseFail "tag")) .exn [] [("memorability", 8)]
    rfl rfl (by decide) rfl rfl rfl

/-- C5 counterexample: in the pricing stage, a worker whose response body
never parses is retried — three network attempts with two backoff sleeps —
contradicting the claim that parse failures stop retrying in every stage. -/
theorem C5_counterexample :
    (check_domain_availability "abc.ai" (fun _ => 0)
        (fun _ => .ok (.parseFail "mismatched tag")) .exn []).attempts = 3
    ∧ (check_domain_availability "abc.ai" (fun _ => 0)
        (fun _ => .ok (.parseFail "mismatched tag")) .exn []).info.error
      = some "XML parsing error: mismatched tag"
    ∧ (check_domain_availability "abc.ai" (fun _ => 0)
        (fun _ => .ok (.parseFail "mismatched tag")) .exn []).delays.length = 2
    ∧ (3 : ℕ) ≠ 1 := by decide

/-- C7 (amended): a worker hit by rate-limit signals the retry loop
classifies as transient — a rate-limit exception in the scoring stage, an
HTTP 429 status in the pricing stage — is attempted exactly `max_retries`
(3) times with non-decreasing backoff delays `base * 2 ^ attempt +
uniform(0, 1)` and ends as a rate-limit error; but a rate-limit message
carried inside an OK-transport API error response in the pricing stage
returns after a single attempt with no retry. -/
theorem C7_amended (domain d2 : String) (jitter : ℕ → ℚ)
    (env : ℕ → ApiOutcome) (envP : ℕ → CheckOutcome)
    (presp : PricingResp) (cache : List (String × ℚ)) (e0 e1 e2 : String)
    (h0 : env 0 = .exn e0) (h1 : env 1 = .exn e1) (h2 : env 2 = .exn e2)
    (hc0 : classifyScoringError e0 = "Rate Limit")
    (hc1 : classifyScoringError e1 = "Rate Limit")
    (hc2 : classifyScoringError e2 = "Rate Limit")
    (p0 : envP 0 = .httpError 429) (p1 : envP 1 = .httpError 429)
    (p2 : envP 2 = .httpError 429)
    (_j00 : 0 ≤ jitter 0) (j01 : jitter 0 ≤ 1)
    (j10 : 0 ≤ jitter 1) (_j11 : jitter 1 ≤ 1) :
    ai_score domain jitter env
      = some ⟨errScoreRow domain none "Rate limited", 3, some "Rate Limit",
          [1 + jitter 0, 2 + jitter 1]⟩
    ∧ List.Chain' (· ≤ ·) [(1 : ℚ) + jitter 0, 2 + jitter 1]
    ∧ check_domain_availability d2 jitter envP presp cache
      = ⟨errPriceInfo d2 "Rate limit exceeded (429)", 3,
          [2 + jitter 0, 4 + jitter 1], cache, false⟩
    ∧ List.Chain' (· ≤ ·) [(2 : ℚ) + jitter 0, 4 + jitter 1] := by
  refine ⟨?_, ?_, ?_, ?_⟩
  · unfold ai_score
    show ai_score_go domain 3 jitter env 0 (2 + 1) = _
    simp only [ai_score_go, h0, hc0]
    norm_num
    simp only [ai_score_go, h1, hc1]
    norm_num
    simp only [ai_score_go, h2, hc2]
    norm_num
  · simp only [List.chain'_cons, List.chain'_singleton, and_true]
    linarith
  · unfold check_domain_availability
    show check_go d2 jitter envP presp cache 0 (2 + 1) = _
    simp only [check_go, p0, MAX_RETRIES, RETRY_DELAY]
    norm_num [httpErrorMsg]
    simp only [check_go, p1, MAX_RETRIES, RETRY_DELAY]
    norm_num [httpErrorMsg]
    simp only [check_go, p2, MAX_RETRIES, RETRY_DELAY]
    norm_num [httpErrorMsg]
  · simp only [List.chain'_cons, List.chain'_singleton, and_true]
    linarith

theorem C7_witness :
    ai_score "a.io" (fun _ => 0) (fun _ => .exn "rate limit hit")
      = some ⟨errScoreRow "a.io" none "Rate limited", 3, some "Rate Limit",
          [1 + (0 : ℚ), 2 + (0 : ℚ)]⟩
    ∧ List.Chain' (· ≤ ·) [(1 : ℚ) + 0, 2 + 0]
    ∧ check_domain_availability "b.io" (fun _ => 0) (fun _ => .httpError 429) .exn []
      = ⟨errPriceInfo "b.io" "Rate limit exceeded (429)", 3,
          [2 + (0 : ℚ), 4 + (0 : ℚ)], [], false⟩
    ∧ List.Chain' (· ≤ ·) [(2 : ℚ) + 0, 4 + 0] :=
  C7_amended "a.io" "b.io" (fun _ => 0) (fun _ => .exn "rate limit hit")
    (fun _ => .httpError 429) .exn [] "rate limit hit" "rate limit hit" "rate limit hit"
    rfl rfl rfl (by decide) (by decide) (by decide) rfl rfl rfl
    (by norm_num) (by norm_num) (by norm_num) (by norm_num)

/-- C7 counterexample: in the pricing stage a rate-limit signal delivered
as an API error message inside a 200-status response is recognised
("Rate limit: ...") yet returned after a single attempt — the worker is
not retried `max_retries` times. -/
theorem C7_counterexample :
    check_domain_availability "abc.ai" (fun _ => 0)
        (fun _ => .ok (.apiError (some "too many requests"))) .exn []
      = ⟨⟨"abc.ai", false, some "Rate limit: too many requests", some "Error", none⟩,
          1, [], [], false⟩
    ∧ (1 : ℕ) ≠ 3 := by decide

theorem postBatchUpdate_false (D : ℚ) (maxF : ℕ) (s : DispatchState) :
    postBatchUpdate D maxF s false
      = (if s.consecutiveErrors + 1 ≥ maxF then ⟨0, D⟩
         else if s.consecutiveErrors + 1 > 0 then
           ⟨s.consecutiveErrors + 1, min 30 (D * 2 ^ (s.consecutiveErrors + 1 - 1))⟩
         else ⟨0, D⟩) := rfl

theorem failStreak_spec (D : ℚ) (maxF : ℕ) :
    ∀ k : ℕ, 0 < k → k < maxF →
      failStreak D maxF k = ⟨k, min 30 (D * 2 ^ (k - 1))⟩ := by
  intro k
  induction k with
  | zero => intro h _; exact absurd h (by omega)
  | succ n ih =>
    intro _ hlt
    cases n with
    | zero =>
      show postBatchUpdate D maxF (failStreak D maxF 0) false = _
      rw [show failStreak D maxF 0 = ⟨0, D⟩ from rfl, postBatchUpdate_false]
      rw [if_neg (by simp; omega), if_pos (by simp)]
    | succ p =>
      have hn := ih (by omega) (by omega)
      show postBatchUpdate D maxF (failStreak D maxF (p + 1)) false = _
      rw [hn, postBatchUpdate_false]
      rw [if_neg (by simp; omega), if_pos (by simp)]

/-- C6 (amended): after `cf` consecutive failing batches (with `cf` below
the long-cooldown threshold), the dispatcher's pre-dispatch sleep is
`current_delay * 2 ^ min(cf - 1, 5)` where `current_delay =
min(30, D * 2 ^ (cf - 1))` as left by the adaptive-delay step — equal to
`D * 2 ^ min(cf - 1, 5)` only for `cf = 1`. -/
theorem C6_amended (D : ℚ) (maxF k : ℕ) (h1 : 0 < k) (h2 : k < maxF) :
    failStreak D maxF k = ⟨k, min 30 (D * 2 ^ (k - 1))⟩
    ∧ preDispatchCooldown (failStreak D maxF k)
        = some (min 30 (D * 2 ^ (k - 1)) * 2 ^ (min (k - 1) 5)) := by
  have hs := failStreak_spec D maxF k h1 h2
  refine ⟨hs, ?_⟩
  rw [hs]
  unfold preDispatchCooldown
  rw [if_pos (by simpa using h1)]

theorem C6_witness :
    failStreak 1 3 1 = ⟨1, min 30 ((1 : ℚ) * 2 ^ (1 - 1))⟩
    ∧ preDispatchCooldown (failStreak 1 3 1)
        = some (min 30 ((1 : ℚ) * 2 ^ (1 - 1)) * 2 ^ (min (1 - 1) 5)) :=
  C6_amended 1 3 1 (by omega) (by omega)

/-- C6 counterexample: with base delay D = 1, after two consecutive
failing batches the dispatcher sleeps 4 seconds before the next batch,
while the claimed formula `D * 2 ^ min(cf - 1, 5)` gives 2. -/
theorem C6_counterexample :
    preDispatchCooldown (failStreak 1 3 2) = some 4
    ∧ (1 : ℚ) * 2 ^ (min (2 - 1) 5) = 2
    ∧ (4 : ℚ) ≠ 2 := by
  have hs := failStreak_spec 1 3 2 (by omega) (by omega)
  refine ⟨?_, by norm_num, by norm_num⟩
  rw [hs]
  unfold preDispatchCooldown
  rw [if_pos (by norm_num)]
  norm_num [min_def]

/-- C8 (amended): five same-TLD pricing workers run to completion one
after another issue exactly one live TLD-price lookup, the remaining four
served from the run-wide cache; interleaved workers that all pass the
cache check before any lookup completes each issue their own lookup. -/
theorem C8_amended :
    (runTldSched "io" (.priceFound 33) (initTldRun 5) [0, 0, 1, 1, 2, 2, 3, 3, 4, 4]).lookups = 1
    ∧ (runTldSched "io" (.priceFound 33) (initTldRun 5) [0, 0, 1, 1, 2, 2, 3, 3, 4, 4]).workers
        = List.replicate 5 ⟨2, some 33⟩ := by decide

/-- C8 counterexample: an interleaving in which all five same-TLD workers
perform the cache check before any live lookup completes issues five
lookups, not one. -/
theorem C8_counterexample :
    (runTldSched "io" (.priceFound 33) (initTldRun 5) [0, 1, 2, 3, 4, 0, 1, 2, 3, 4]).lookups = 5
    ∧ (5 : ℕ) ≠ 1 := by decide

theorem map_scoring_view (f : Row → Row)
    (hf : ∀ r, scoringView (f r) = scoringView r) :
    ∀ db : List Row, (db.map f).map scoringView = db.map scoringView := by
  intro db
  induction db with
  | nil => rfl
  | cons r rest ih => simp [hf r, ih]

theorem map_fix_of_ne (f : Row → Row) (d : String)
    (hf : ∀ r : Row, r.domain ≠ d → f r = r) :
    ∀ db : List Row, (∀ r ∈ db, r.domain ≠ d) → db.map f = db := by
  intro db
  induction db with
  | nil => intro _; rfl
  | cons r rest ih =>
    intro h
    have h1 := h r (List.mem_cons_self r rest)
    have h2 : ∀ r0 ∈ rest, r0.domain ≠ d := fun r0 hr0 => h r0 (List.mem_cons_of_mem r hr0)
    simp [hf r h1, ih h2]

theorem selected_price_type (sortVal : Row → Option ℚ) (it : Bool) (row : Row)
    (h : selectedForPricing sortVal it true row = true) :
    row.price_type = none ∨ row.price_type = some "Error" := by
  cases hpt : row.price_type with
  | none => exact Or.inl rfl
  | some pt =>
    refine Or.inr ?_
    unfold selectedForPricing at h
    rw [hpt] at h
    simp [Bool.and_eq_true] at h
    obtain ⟨-, h2⟩ := h
    rw [h2]

/-- C1 counterexample: persisting a scoring outcome for an existing row via
`insert_result` (INSERT OR REPLACE) resets the row's previously stored
`price`, `price_type` and `pricing_data` to NULL, contradicting the claim
that they are left unchanged. -/
theorem C1_counterexample :
    insert_result [pricedRow] scoreUpd = [rowOfScore scoreUpd]
    ∧ (rowOfScore scoreUpd).price = none
    ∧ (rowOfScore scoreUpd).price_type = none
    ∧ (rowOfScore scoreUpd).pricing_data = none
    ∧ pricedRow.price = some 500
    ∧ pricedRow.price_type = some "Premium"
    ∧ pricedRow.pricing_data = some "pd" := by decide

/-- C1 (amended): the pricing-stage upsert writes only pricing fields and
leaves every scoring-stage field unchanged; the scoring-stage
`insert_result`, however, replaces the whole row, so the pricing fields of
the upserted row are NULL. -/
theorem C1_amended :
    (∀ (db : List Row) (d : String) (info : PriceInfo),
      (update_domain_price_in_db db d info).map scoringView = db.map scoringView)
    ∧ (∀ (db : List Row) (sr : ScoreRow) (r : Row),
      r ∈ insert_result db sr → r.domain = sr.domain →
      r.price = none ∧ r.price_type = none ∧ r.pricing_data = none) := by
  constructor
  · intro db d info
    unfold update_domain_price_in_db
    split
    · exact map_scoring_view _ (fun r => by by_cases h : r.domain = d <;> simp [h, scoringView]) db
    · exact map_scoring_view _ (fun r => by by_cases h : r.domain = d <;> simp [h, scoringView]) db
  · intro db sr r hr hdom
    unfold insert_result at hr
    rcases List.mem_cons.mp hr with h | h
    · subst h; exact ⟨rfl, rfl, rfl⟩
    · exfalso
      have hne := (List.mem_filter.mp h).2
      simp [hdom] at hne

theorem C1_witness :
    (update_domain_price_in_db [pricedRow] "abc.ai" okPriceInfo).map scoringView
        = [pricedRow].map scoringView
    ∧ ((rowOfScore scoreUpd).price = none ∧ (rowOfScore scoreUpd).price_type = none
        ∧ (rowOfScore scoreUpd).pricing_data = none) :=
  ⟨C1_amended.1 [pricedRow] "abc.ai" okPriceInfo,
   C1_amended.2 [pricedRow] scoreUpd (rowOfScore scoreUpd) (by simp [insert_result]) rfl⟩

/-- C4 counterexample: with a stored spelling "ABC.com", the
stage-completion lookup finds the record under "abc.com", but the
pricing-stage update addressed at "abc.com" changes nothing (exact
case-sensitive match): the two do not address the same record. -/
theorem C4_counterexample :
    domain_already_processed [storedRow] "abc.com" = true
    ∧ update_domain_price_in_db [storedRow] "abc.com" stdInfo = [storedRow]
    ∧ storedRow.price = none ∧ stdInfo.price = some 11 ∧ stdInfo.error = none := by decide

/-- C4 (amended): the scoring-stage completion lookup is case-insensitive
(it depends only on the stripped, lower-cased key), but the pricing-stage
row update matches the stored spelling exactly, so a spelling that differs
from every stored domain updates nothing. -/
theorem C4_amended :
    (∀ (db : List Row) (d1 d2 : String),
      lowerStr (trimStr d1) = lowerStr (trimStr d2) →
      domain_already_processed db d1 = domain_already_processed db d2)
    ∧ (∀ (db : List Row) (d : String) (info : PriceInfo),
      (∀ r ∈ db, r.domain ≠ d) → update_domain_price_in_db db d info = db) := by
  constructor
  · intro db d1 d2 h
    unfold domain_already_processed
    rw [h]
  · intro db d info hne
    unfold update_domain_price_in_db
    split
    · exact map_fix_of_ne _ d (fun r hr => by simp [hr]) db hne
    · exact map_fix_of_ne _ d (fun r hr => by simp [hr]) db hne

theorem C4_witness :
    domain_already_processed [storedRow] " ABC.COM " = domain_already_processed [storedRow] "abc.com"
    ∧ update_domain_price_in_db [] "abc.com" stdInfo = ([] : List Row) :=
  ⟨C4_amended.1 [storedRow] " ABC.COM " "abc.com" (by decide),
   C4_amended.2 [] "abc.com" stdInfo (by simp)⟩

/-- C9: with `skip_priced = True` the candidate query selects only rows
with `price_type` NULL or 'Error'; a row marked 'Filtered' is never
selected, and a premium outcome rewritten to 'Filtered' by the price
ceiling is stored so that no later default run selects it. -/
theorem C9_invariant :
    (∀ (sortVal : Row → Option ℚ) (it : Bool) (row : Row),
      selectedForPricing sortVal it true row = true →
      row.price_type = none ∨ row.price_type = some "Error")
    ∧ (∀ (sortVal : Row → Option ℚ) (it : Bool) (row : Row),
      row.price_type = some "Filtered" → selectedForPricing sortVal it true row = false)
    ∧ (∀ (sortVal : Row → Option ℚ) (it : Bool) (db : List Row) (d : String),
      d ∈ get_domains_to_process db sortVal it true →
      ∃ r0, r0 ∈ db ∧ r0.domain = d
        ∧ (r0.price_type = none ∨ r0.price_type = some "Error"))
    ∧ (∀ (sortVal : Row → Option ℚ) (it : Bool) (m : ℚ) (info : PriceInfo)
        (db : List Row) (row2 : Row),
      ¬ m = 0 → info.error = none → info.available = true →
      info.price_type = some "Premium" → info.price.getD 0 > m →
      row2 ∈ update_domain_price_in_db db info.domain (applyMaxPriceFilter (some m) info) →
      row2.domain = info.domain →
      selectedForPricing sortVal it true row2 = false) := by
  refine ⟨selected_price_type, ?_, ?_, ?_⟩
  · intro sortVal it row hpt
    unfold selectedForPricing
    rw [hpt]
    simp
  · intro sortVal it db d hd
    unfold get_domains_to_process at hd
    rcases List.mem_map.mp hd with ⟨r0, hr0, hdom⟩
    exact ⟨r0, (List.mem_filter.mp hr0).1, hdom,
      selected_price_type sortVal it r0 (List.mem_filter.mp hr0).2⟩
  · intro sortVal it m info db row2 hm he ha hp hgt hmem hdom
    have hcond : info.error = none ∧ info.available = true
        ∧ info.price_type = some "Premium" ∧ ¬ m = 0 ∧ info.price.getD 0 > m :=
      ⟨he, ha, hp, hm, hgt⟩
    have hred : applyMaxPriceFilter (some m) info = { info with price_type := some "Filtered" } := by
      show (if info.error = none ∧ info.available = true ∧ info.price_type = some "Premium"
          ∧ ¬ m = 0 ∧ info.price.getD 0 > m then { info with price_type := some "Filtered" }
        else info) = { info with price_type := some "Filtered" }
      exact if_pos hcond
    have hfe : (applyMaxPriceFilter (some m) info).error = none := by
      rw [hred]; exact he
    have hfp : (applyMaxPriceFilter (some m) info).price_type = some "Filtered" := by
      rw [hred]
    unfold update_domain_price_in_db at hmem
    rw [if_pos hfe] at hmem
    rcases List.mem_map.mp hmem with ⟨pre, _, heq⟩
    by_cases hd : pre.domain = info.domain
    · rw [if_pos hd] at heq
      have hpt2 : row2.price_type = some "Filtered" := by
        rw [← heq, hfp]
      unfold selectedForPricing
      rw [hpt2]
      simp
    · rw [if_neg hd] at heq
      rw [← heq] at hdom
      exact absurd hdom hd

theorem C9_witness :
    filteredRow.price_type = some "Filtered"
    ∧ selectedForPricing Row.average_score false true filteredRow = false :=
  ⟨rfl, C9_invariant.2.1 Row.average_score false filteredRow rfl⟩

/-- C10: `get_tld_price` is total, on every return path the returned price
is stored in the run-wide cache under the TLD before returning, every
failed live lookup falls back to the static table, and the static table is
matched case-insensitively with default 14.98. -/
theorem C10_total :
    ∀ (cache : List (String × ℚ)) (tld : String) (resp : PricingResp),
      ((get_tld_price cache tld resp).2.1.lookup tld = some (get_tld_price cache tld resp).1)
      ∧ (cache.lookup tld = none → pricingFailed resp = true →
          (get_tld_price cache tld resp).1 = get_standard_price_for_tld tld)
      ∧ (standard_prices.lookup (lowerStr tld) = none →
          get_standard_price_for_tld tld = 1498/100)
      ∧ (∀ t2 : String, lowerStr tld = lowerStr t2 →
          get_standard_price_for_tld tld = get_standard_price_for_tld t2) := by
  intro cache tld resp
  refine ⟨?_, ?_, ?_, ?_⟩
  · cases h : cache.lookup tld with
    | some p => simp [get_tld_price, h]
    | none => simp [get_tld_price, h, insertCache, List.lookup]
  · intro hmiss hfail
    unfold get_tld_price
    rw [hmiss]
    cases resp with
    | priceFound p => simp [pricingFailed] at hfail
    | httpError => rfl
    | parseFail => rfl
    | apiNotOk => rfl
    | priceUnparsable => rfl
    | priceMissing => rfl
    | exn => rfl
  · intro h
    simp [get_standard_price_for_tld, h]
  · intro t2 h
    unfold get_standard_price_for_tld
    rw [h]

theorem C10_witness :
    ((get_tld_price [] "WeIrD" .exn).2.1.lookup "WeIrD" = some (get_tld_price [] "WeIrD" .exn).1)
    ∧ (get_tld_price [] "WeIrD" .exn).1 = get_standard_price_for_tld "WeIrD"
    ∧ get_standard_price_for_tld "WeIrD" = 1498/100
    ∧ get_standard_price_for_tld "WeIrD" = get_standard_price_for_tld "weird" :=
  ⟨(C10_total [] "WeIrD" .exn).1,
   (C10_total [] "WeIrD" .exn).2.1 rfl rfl,
   (C10_total [] "WeIrD" .exn).2.2.1 (by decide),
   (C10_total [] "WeIrD" .exn).2.2.2 "weird" (by decide)⟩

end DomainHunter
